import Mathlib

/-!
Shallow embedding of the authentication and token-lifecycle subsystem of the
`vs-code-spotify-extension` repository.

The embedding covers, translated from the TypeScript source:
  * `SpotifyService` (src/unnamed/part_000): the token store and manager —
    `loadTokens`, `saveTokens`, `refreshAccessToken`, `getValidToken`,
    `isAuthenticated`, `authenticate`, `getCurrentTrack`, `handleApiError`,
    `pause` — as explicit state-passing functions over a `ServiceState`.
    Network responses and the interactive re-authentication prompt are
    parameters (oracles) of the functions that consume them.
  * `AuthServer` (src/.history/.../authServer_20251102210516.ts): the callback
    request handler as a pure function of the parsed query, plus an event model
    for the attempt (callback request / timeout / dispose) in which promise
    resolution is first-resolve-wins, as in the JavaScript `Promise` executor.
  * the PKCE helpers (src/.history/.../pkce_20251102210719.ts): UTF-8
    encoding, SHA-256 (FIPS 180-4, words as `Nat` reduced mod 2^32), the
    standard base64 encoder (Node's `Buffer.toString`), and the source's
    replace-and-strip post-processing.
  * a two-caller interleaving model of `getValidToken`, with suspension points
    at the refresh-token POSTs, mirroring Node's single-threaded event loop in
    which each `await axios.post` lets other pending callers run to their own
    suspension points before any response is applied.
-/

namespace SpotifyExt

/-- `SpotifyTokens` (src/unnamed/part_002): the persisted credential.
`expiresAt` is an absolute timestamp in milliseconds. -/
structure SpotifyTokens where
  accessToken : String
  refreshToken : String
  expiresAt : Int
deriving DecidableEq

/-- JavaScript truthiness of a string value (`if (s)`): false exactly on the
empty string (and on an absent value, modelled by the caller). -/
def strTruthy (s : String) : Bool := s ≠ ""

/-- The mutable state of one `SpotifyService` instance: the in-memory
`this.tokens` field and the durable `globalState['spotifyTokens']` slot.
`refreshGrants` and `apiCalls` are instrumentation: `refreshGrants` counts the
refresh-token POSTs issued to the token endpoint (incremented at the point
`axios.post(TOKEN_URL, grant_type=refresh_token, ...)` is sent), `apiCalls`
counts the media-API requests issued. -/
structure ServiceState where
  tokens : Option SpotifyTokens
  stored : Option SpotifyTokens
  refreshGrants : Nat
  apiCalls : Nat
deriving DecidableEq

/-- The hardcoded client id (src/unnamed/part_000 line 9). -/
def CLIENT_ID : String := "3a0a1cc0ad994ad1ba5cf091571e79c2"

/-- The JSON body of a successful refresh-grant response: `access_token`,
optional `refresh_token`, `expires_in` (seconds). -/
structure RefreshResponse where
  access_token : String
  refresh_token : Option String
  expires_in : Int
deriving DecidableEq

/-- The value `AuthServer.authenticate` resolves with on success. -/
structure AuthResult where
  accessToken : String
  refreshToken : String
  expiresIn : Int
deriving DecidableEq

/-- `saveTokens` (part_000 lines 39-43): store in memory and durably. -/
def saveTokens (t : SpotifyTokens) (s : ServiceState) : ServiceState :=
  { s with tokens := some t, stored := some t }

/-- `SpotifyService.authenticate` (part_000 lines 45-94). `authOutcome` is
what `AuthServer.authenticate` resolved with (`none` = null). On success the
credential is saved with `expiresAt = now + expiresIn * 1000`. The trailing
`getCurrentTrack` probe is modelled as state-preserving: with the freshly
saved credential (provider lifetimes are far above the 5-minute margin) it
performs no refresh and only reads state. -/
def serviceAuthenticate (now : Int) (authOutcome : Option AuthResult)
    (s : ServiceState) : Bool × ServiceState :=
  if CLIENT_ID = "" ∨ CLIENT_ID = "YOUR_SPOTIFY_CLIENT_ID_HERE" then (false, s)
  else
    match authOutcome with
    | none => (false, s)
    | some r =>
      (true, saveTokens
        { accessToken := r.accessToken
          refreshToken := r.refreshToken
          expiresAt := now + r.expiresIn * 1000 } s)

/-- `SpotifyService.refreshAccessToken` (part_000 lines 96-147). Reads the
credential from durable storage; with no stored refresh token it returns false
without issuing a request. Otherwise the refresh-token POST is issued
(`refreshGrants` incremented); `net` is its outcome (`none` = the request
threw). On success the new credential is saved, reusing the prior refresh
token when the provider did not rotate it. On failure both copies are cleared,
a re-authentication prompt is shown (`userChoosesAuth` = the user clicked
"Authenticate", in which case `serviceAuthenticate` runs with outcome
`authOutcome`), and false is returned. -/
def refreshAccessToken (now : Int) (net : Option RefreshResponse)
    (userChoosesAuth : Bool) (authOutcome : Option AuthResult)
    (s : ServiceState) : Bool × ServiceState :=
  match s.stored with
  | none => (false, s)
  | some toks =>
    if strTruthy toks.refreshToken then
      let s1 := { s with refreshGrants := s.refreshGrants + 1 }
      match net with
      | some resp =>
        (true, saveTokens
          { accessToken := resp.access_token
            refreshToken := resp.refresh_token.getD toks.refreshToken
            expiresAt := now + resp.expires_in * 1000 } s1)
      | none =>
        let s2 := { s1 with tokens := none, stored := none }
        let s3 := if userChoosesAuth
          then (serviceAuthenticate now authOutcome s2).2 else s2
        (false, s3)
    else (false, s)

/-- `SpotifyService.loadTokens` (part_000 lines 22-37): adopt the stored
credential if unexpired; if expired with a refresh token, run a refresh;
otherwise leave the in-memory slot empty. -/
def loadTokens (now : Int) (net : Option RefreshResponse)
    (userChoosesAuth : Bool) (authOutcome : Option AuthResult)
    (s : ServiceState) : ServiceState :=
  match s.stored with
  | none => s
  | some saved =>
    if saved.expiresAt > now then { s with tokens := some saved }
    else if strTruthy saved.refreshToken then
      (refreshAccessToken now net userChoosesAuth authOutcome s).2
    else s

/-- `SpotifyService.getValidToken` (part_000 lines 149-172): load if no
credential is in memory; return null if still none; refresh when `expiresAt`
is within 5 minutes of now and a refresh token is held, returning null when
the refresh fails or no refresh token exists; otherwise return the (possibly
just-renewed) access token. -/
def getValidToken (now : Int) (net : Option RefreshResponse)
    (userChoosesAuth : Bool) (authOutcome : Option AuthResult)
    (s : ServiceState) : Option String × ServiceState :=
  let s0 := if s.tokens.isNone
    then loadTokens now net userChoosesAuth authOutcome s else s
  match s0.tokens with
  | none => (none, s0)
  | some toks =>
    if toks.expiresAt < now + 5 * 60 * 1000 then
      if strTruthy toks.refreshToken then
        let r := refreshAccessToken now net userChoosesAuth authOutcome s0
        if r.1 then (r.2.tokens.map (fun t => t.accessToken), r.2)
        else (none, r.2)
      else (none, s0)
    else (some toks.accessToken, s0)

/-- `SpotifyService.isAuthenticated` (part_000 lines 411-413). -/
def isAuthenticated (now : Int) (s : ServiceState) : Bool :=
  match s.tokens with
  | none => false
  | some toks => decide (toks.expiresAt > now) || strTruthy toks.refreshToken

/-- A media-API response as observed by `getCurrentTrack`: a track payload, a
204/empty body, a thrown 401, or another thrown status. -/
inductive ApiResponse where
  | ok (trackName : String)
  | noContent
  | unauthorized
  | otherError (status : Nat)
deriving DecidableEq

/-- `SpotifyService.getCurrentTrack` (part_000 lines 174-215), with the
provider's successive responses as a list consumed in order and the refresh
endpoint as an oracle indexed by the number of grants issued so far. On a
thrown 401 it refreshes and, when the refresh succeeds, retries the whole
call (a recursive re-invocation, which re-runs `getValidToken`). An empty
response list (network silence) is modelled as no track. -/
def getCurrentTrack (now : Int) (oracle : Nat → Option RefreshResponse)
    (userChoosesAuth : Bool) (authOutcome : Option AuthResult) :
    List ApiResponse → ServiceState → Option String × ServiceState
  | [], s =>
    let g := getValidToken now (oracle s.refreshGrants) userChoosesAuth authOutcome s
    (none, g.2)
  | resp :: rest, s =>
    let g := getValidToken now (oracle s.refreshGrants) userChoosesAuth authOutcome s
    match g.1 with
    | none => (none, g.2)
    | some _ =>
      let s1 := { g.2 with apiCalls := g.2.apiCalls + 1 }
      match resp with
      | .ok t => (some t, s1)
      | .noContent => (none, s1)
      | .unauthorized =>
        let r := refreshAccessToken now (oracle s1.refreshGrants)
          userChoosesAuth authOutcome s1
        if r.1 then getCurrentTrack now oracle userChoosesAuth authOutcome rest r.2
        else (none, r.2)
      | .otherError _ => (none, s1)

/-- `SpotifyService.handleApiError` (part_000 lines 388-409): on a 401,
refresh once (no retry of the original call); other statuses only surface
messages and leave the credential alone. -/
def handleApiError (now : Int) (net : Option RefreshResponse)
    (userChoosesAuth : Bool) (authOutcome : Option AuthResult)
    (status : Nat) (s : ServiceState) : ServiceState :=
  if status = 401 then
    (refreshAccessToken now net userChoosesAuth authOutcome s).2
  else s

/-- The outcome of the single `axios.put` issued by `pause`. -/
inductive PauseOutcome where
  | success
  | failure (status : Nat)
deriving DecidableEq

/-- `SpotifyService.pause` (part_000 lines 271-285): resolve a valid token,
issue one request, and route any thrown status to `handleApiError`. -/
def pauseCall (now : Int) (net : Option RefreshResponse)
    (userChoosesAuth : Bool) (authOutcome : Option AuthResult)
    (resp : PauseOutcome) (s : ServiceState) : ServiceState :=
  let g := getValidToken now net userChoosesAuth authOutcome s
  match g.1 with
  | none => g.2
  | some _ =>
    let s1 := { g.2 with apiCalls := g.2.apiCalls + 1 }
    match resp with
    | .success => s1
    | .failure st => handleApiError now net userChoosesAuth authOutcome st s1

/-! ## AuthServer: the callback handler and the attempt's event model
(src/.history/spotify-vscode-player/src/authServer_20251102210516.ts) -/

/-- The three query parameters the callback handler extracts (lines 42-44);
`none` models an absent parameter (`undefined` after the cast). -/
structure CallbackQuery where
  code : Option String
  callbackState : Option String
  error : Option String
deriving DecidableEq

/-- The page written to the browser, abstracted to its class and message
(`getSuccessHtml` / `getErrorHtml msg`). -/
inductive Page where
  | successPage
  | errorPage (msg : String)
deriving DecidableEq

/-- How the attempt's promise stands: unresolved, resolved with null, or
resolved with tokens. The executor (lines 13-95) never calls a reject
function, so the type has no rejected alternative. -/
inductive Resolution where
  | pending
  | resolvedNull
  | resolvedTokens (t : AuthResult)
deriving DecidableEq

/-- What one request does: the page written (if any), whether
`this.server.close()` ran, and the resolve call made (if any). -/
structure HandlerResult where
  response : Option Page
  serverClosed : Bool
  resolution : Resolution
deriving DecidableEq

/-- JavaScript truthiness of a possibly absent string parameter: false when
the parameter is absent (`undefined`) and when it is present but empty
(`?code=`, which `url.parse` yields as the empty string). -/
def optTruthy (o : Option String) : Bool :=
  match o with
  | none => false
  | some s => strTruthy s

/-- The handler's tail after the `if (error)` truthiness check failed to
fire (lines 54-79): the state comparison (`returnedState !== state`, where an
absent parameter compares unequal), then the `if (code)` truthiness check
guarding the exchange, whose outcome is the oracle `exchangeResult` (`none` =
`exchangeCodeForToken` threw). With a matching state and a falsy `code`
(absent or empty) the handler falls through with no else branch: no page is
written, the server stays open, and no resolve call is made. -/
def handleCallbackPastError (expectedState : String)
    (exchangeResult : Option AuthResult) (q : CallbackQuery) : HandlerResult :=
  if q.callbackState ≠ some expectedState then
    ⟨some (.errorPage "State mismatch"), true, .resolvedNull⟩
  else if optTruthy q.code then
    match exchangeResult with
    | some t => ⟨some .successPage, true, .resolvedTokens t⟩
    | none => ⟨some (.errorPage "Failed to get access token"), true, .resolvedNull⟩
  else ⟨none, false, .pending⟩

/-- The request handler (lines 38-81). Branch order as in the source: the
`if (error)` truthiness check first — it fires only on a present, non-empty
`error` value; a present-but-empty `?error=` is falsy and falls through to
the rest of the handler — then the state comparison and the code exchange
(`handleCallbackPastError`). Requests outside `/callback` are ignored
entirely (the handler body is guarded by the pathname check and has no other
branch). -/
def handleCallback (expectedState : String) (exchangeResult : Option AuthResult)
    (path : String) (q : CallbackQuery) : HandlerResult :=
  if path = "/callback" then
    match q.error with
    | some e =>
      if strTruthy e then ⟨some (.errorPage e), true, .resolvedNull⟩
      else handleCallbackPastError expectedState exchangeResult q
    | none => handleCallbackPastError expectedState exchangeResult q
  else ⟨none, false, .pending⟩

/-- The attempt's observable state: whether the listener has been closed
(port released) and how the promise stands. -/
structure AttemptState where
  serverClosed : Bool
  resolution : Resolution
deriving DecidableEq

/-- JavaScript promise semantics: the first resolve call wins, later ones are
no-ops; `pending` as the new value means no resolve call was made. -/
def resolveOnce (old new : Resolution) : Resolution :=
  match old with
  | .pending => new
  | _ => old

/-- An event during one attempt: an HTTP request arriving (with the exchange
oracle for its possible code exchange), the 5-minute `setTimeout` firing
(lines 89-94: `this.server` is never reassigned to null, so the guard holds
and the timeout closes the server and resolves null), or `dispose`
(lines 208-212: closes the server, resolves nothing). -/
inductive AuthEvent where
  | request (path : String) (q : CallbackQuery) (exchangeResult : Option AuthResult)
  | timeoutFires
  | dispose
deriving DecidableEq

/-- Apply one event to the attempt's state. -/
def applyEvent (expectedState : String) (e : AuthEvent) (st : AttemptState) :
    AttemptState :=
  match e with
  | .request path q exch =>
    let h := handleCallback expectedState exch path q
    ⟨st.serverClosed || h.serverClosed, resolveOnce st.resolution h.resolution⟩
  | .timeoutFires => ⟨true, resolveOnce st.resolution .resolvedNull⟩
  | .dispose => ⟨true, st.resolution⟩

/-- Run a sequence of events from a given attempt state. -/
def runEvents (expectedState : String) (es : List AuthEvent) (st : AttemptState) :
    AttemptState :=
  es.foldl (fun acc e => applyEvent expectedState e acc) st

/-- The state an attempt starts in: listener bound, promise pending. -/
def initialAttempt : AttemptState := ⟨false, .pending⟩

/-! ## Two concurrent `getValidToken` callers

Node's event loop runs one caller until its next `await` on a real
suspension (here: the refresh-token POST inside `refreshAccessToken`), then
lets another pending caller run. Each caller of `getValidToken` is modelled
as a phase machine over the shared `ServiceState`; a step runs the caller's
code from its current suspension point to the next one (or to completion),
exactly following part_000 lines 149-172 / 96-147 / 22-37. -/

/-- Where a `getValidToken` caller stands. The awaiting phases carry the
`tokens.refreshToken` value `refreshAccessToken` read from storage before its
POST suspended (the local `tokens` binding of line 97), which the resume uses
for `response.data.refresh_token || tokens.refreshToken`. -/
inductive CallerPhase where
  | start
  | awaitRefresh (capturedRefresh : String)
  | awaitLoadRefresh (capturedRefresh : String)
  | finished (result : Option String)
deriving DecidableEq

/-- The expiry check of `getValidToken` (lines 159-171) run synchronously up
to either completion or the refresh POST: with an expiring credential and an
in-memory refresh token, `refreshAccessToken` re-reads storage, and only when
the stored copy also holds a truthy refresh token is the POST issued
(`refreshGrants` incremented) and the caller suspended. -/
def stepExpiryCheck (now : Int) (s : ServiceState) : ServiceState × CallerPhase :=
  match s.tokens with
  | none => (s, .finished none)
  | some toks =>
    if toks.expiresAt < now + 5 * 60 * 1000 then
      if strTruthy toks.refreshToken then
        match s.stored with
        | none => (s, .finished none)
        | some st0 =>
          if strTruthy st0.refreshToken then
            ({ s with refreshGrants := s.refreshGrants + 1 },
              .awaitRefresh st0.refreshToken)
          else (s, .finished none)
      else (s, .finished none)
    else (s, .finished (some toks.accessToken))

/-- A caller's first step: `getValidToken` from its entry (lines 150-157,
including the `loadTokens` path) to the first suspension or to completion. -/
def stepStart (now : Int) (s : ServiceState) : ServiceState × CallerPhase :=
  match s.tokens with
  | some _ => stepExpiryCheck now s
  | none =>
    match s.stored with
    | none => (s, .finished none)
    | some saved =>
      if saved.expiresAt > now then
        stepExpiryCheck now { s with tokens := some saved }
      else if strTruthy saved.refreshToken then
        ({ s with refreshGrants := s.refreshGrants + 1 },
          .awaitLoadRefresh saved.refreshToken)
      else (s, .finished none)

/-- The effect of a successful refresh response (lines 121-125): save the new
credential, falling back to the refresh token captured before the POST. -/
def applyRefreshSuccess (now : Int) (resp : RefreshResponse) (captured : String)
    (s : ServiceState) : ServiceState :=
  saveTokens
    { accessToken := resp.access_token
      refreshToken := resp.refresh_token.getD captured
      expiresAt := now + resp.expires_in * 1000 } s

/-- One scheduler step for a caller: from its current phase, run to the next
suspension point or to completion. `net` is the outcome every in-flight
refresh POST resolves with. On a failed refresh both credential copies are
cleared and the caller returns null (the re-authentication prompt is declined
in this machine). A caller resumed from the `loadTokens` refresh re-enters
`getValidToken`'s expiry check, as the source does after `await
this.loadTokens()`. -/
def stepCaller (now : Int) (net : Option RefreshResponse) (ph : CallerPhase)
    (s : ServiceState) : ServiceState × CallerPhase :=
  match ph with
  | .start => stepStart now s
  | .awaitRefresh cap =>
    match net with
    | some resp =>
      let s1 := applyRefreshSuccess now resp cap s
      (s1, .finished (s1.tokens.map (fun t => t.accessToken)))
    | none => ({ s with tokens := none, stored := none }, .finished none)
  | .awaitLoadRefresh cap =>
    match net with
    | some resp => stepExpiryCheck now (applyRefreshSuccess now resp cap s)
    | none => ({ s with tokens := none, stored := none }, .finished none)
  | .finished r => (s, .finished r)

/-- Two callers sharing one `SpotifyService` instance. -/
structure ConcState where
  svc : ServiceState
  callerA : CallerPhase
  callerB : CallerPhase
deriving DecidableEq

/-- Run a schedule: each entry picks the caller (`true` = A) that executes
its next step on the shared state. -/
def schedRun (now : Int) (net : Option RefreshResponse) :
    List Bool → ConcState → ConcState
  | [], cs => cs
  | pick :: rest, cs =>
    let cs1 :=
      if pick then
        let r := stepCaller now net cs.callerA cs.svc
        { cs with svc := r.1, callerA := r.2 }
      else
        let r := stepCaller now net cs.callerB cs.svc
        { cs with svc := r.1, callerB := r.2 }
    schedRun now net rest cs1

/-! ## PKCE (src/.history/spotify-vscode-player/src/pkce_20251102210719.ts)

`generateCodeChallenge(verifier)` is `base64URLEncode(sha256(verifier))`:
`crypto.createHash('sha256').update(verifier)` hashes the verifier's UTF-8
bytes, `Buffer.toString('base64')` encodes with the standard alphabet and
`=` padding, and the source then replaces `+` with `-`, `/` with `_`, and
strips `=`. Bytes are `Nat`s below 256; 32-bit words are `Nat`s reduced
mod 2^32. -/

/-- UTF-8 encoding of one scalar value (what Node's `hash.update(string)`
uses by default). -/
def utf8Char (c : Char) : List Nat :=
  let n := c.toNat
  if n < 128 then [n]
  else if n < 2048 then [192 + n / 64, 128 + n % 64]
  else if n < 65536 then
    [224 + n / 4096, 128 + n / 64 % 64, 128 + n % 64]
  else
    [240 + n / 262144, 128 + n / 4096 % 64, 128 + n / 64 % 64, 128 + n % 64]

/-- The UTF-8 bytes of a string. -/
def utf8Bytes (s : String) : List Nat :=
  s.toList.foldr (fun c acc => utf8Char c ++ acc) []

/-- Reduction to a 32-bit word. -/
def w32 (n : Nat) : Nat := n % 4294967296

/-- Right rotation of a 32-bit word. -/
def rotr (k n : Nat) : Nat := w32 ((n >>> k) ||| (n <<< (32 - k)))

/-- FIPS 180-4 `Ch`. -/
def shaCh (x y z : Nat) : Nat := (x &&& y) ^^^ ((x ^^^ 4294967295) &&& z)

/-- FIPS 180-4 `Maj`. -/
def shaMaj (x y z : Nat) : Nat := (x &&& y) ^^^ (x &&& z) ^^^ (y &&& z)

/-- FIPS 180-4 `Σ0`. -/
def bigSigma0 (x : Nat) : Nat := rotr 2 x ^^^ rotr 13 x ^^^ rotr 22 x

/-- FIPS 180-4 `Σ1`. -/
def bigSigma1 (x : Nat) : Nat := rotr 6 x ^^^ rotr 11 x ^^^ rotr 25 x

/-- FIPS 180-4 `σ0`. -/
def smallSigma0 (x : Nat) : Nat := rotr 7 x ^^^ rotr 18 x ^^^ (x >>> 3)

/-- FIPS 180-4 `σ1`. -/
def smallSigma1 (x : Nat) : Nat := rotr 17 x ^^^ rotr 19 x ^^^ (x >>> 10)

/-- The SHA-256 round constants (FIPS 180-4 §4.2.2, in decimal). -/
def shaK : List Nat :=
  [1116352408, 1899447441, 3049323471, 3921009573, 961987163, 1508970993,
   2453635748, 2870763221, 3624381080, 310598401, 607225278, 1426881987,
   1925078388, 2162078206, 2614888103, 3248222580, 3835390401, 4022224774,
   264347078, 604807628, 770255983, 1249150122, 1555081692, 1996064986,
   2554220882, 2821834349, 2952996808, 3210313671, 3336571891, 3584528711,
   113926993, 338241895, 666307205, 773529912, 1294757372, 1396182291,
   1695183700, 1986661051, 2177026350, 2456956037, 2730485921, 2820302411,
   3259730800, 3345764771, 3516065817, 3600352804, 4094571909, 275423344,
   430227734, 506948616, 659060556, 883997877, 958139571, 1322822218,
   1537002063, 1747873779, 1955562222, 2024104815, 2227730452, 2361852424,
   2428436474, 2756734187, 3204031479, 3329325298]

/-- The SHA-256 initial hash value (FIPS 180-4 §5.3.3, in decimal). -/
def shaH0 : List Nat :=
  [1779033703, 3144134277, 1013904242, 2773480762,
   1359893119, 2600822924, 528734635, 1541459225]

/-- Big-endian byte decomposition: `beBytes k n` is the `k` low-order bytes
of `n`, most significant first. -/
def beBytes : Nat → Nat → List Nat
  | 0, _ => []
  | k + 1, n => beBytes k (n / 256) ++ [n % 256]

/-- SHA-256 padding: append `0x80`, zeros to 56 mod 64, and the bit length
as 8 big-endian bytes. -/
def padMsg (m : List Nat) : List Nat :=
  let l := m.length
  let zeros := (120 - (l + 1) % 64) % 64
  m ++ [128] ++ List.replicate zeros 0 ++ beBytes 8 (8 * l)

/-- Big-endian 32-bit words from a byte list (groups of four). -/
def bytesToWords : List Nat → List Nat
  | a :: b :: c :: d :: rest =>
    (a * 16777216 + b * 65536 + c * 256 + d) :: bytesToWords rest
  | _ => []

/-- Message-schedule extension: `acc` holds the words produced so far in
reverse (most recent first, length at least 16); each step prepends
`σ1 W[t-2] + W[t-7] + σ0 W[t-15] + W[t-16]`. -/
def scheduleExt : Nat → List Nat → List Nat
  | 0, acc => acc
  | k + 1, acc =>
    scheduleExt k
      (w32 (smallSigma1 (acc.getD 1 0) + acc.getD 6 0 +
        smallSigma0 (acc.getD 14 0) + acc.getD 15 0) :: acc)

/-- The 64-word message schedule of one block (given as its 16 words). -/
def schedule (first16 : List Nat) : List Nat :=
  (scheduleExt 48 first16.reverse).reverse

/-- One compression round on the working variables `[a,b,c,d,e,f,g,h]`. -/
def shaRound (st : List Nat) (kw : Nat × Nat) : List Nat :=
  match st with
  | [a, b, c, d, e, f, g, h] =>
    let t1 := w32 (h + bigSigma1 e + shaCh e f g + kw.1 + kw.2)
    let t2 := w32 (bigSigma0 a + shaMaj a b c)
    [w32 (t1 + t2), a, b, c, w32 (d + t1), e, f, g]
  | _ => st

/-- Compress one 64-byte block into the running hash value. -/
def compressBlock (hv : List Nat) (block : List Nat) : List Nat :=
  let ws := schedule (bytesToWords block)
  let st := (ws.zip shaK).foldl shaRound hv
  (hv.zip st).map (fun p => w32 (p.1 + p.2))

/-- Process the padded message 64 bytes at a time (`fuel` bounds the number
of bytes left and is supplied as the padded length). -/
def processBlocks : Nat → List Nat → List Nat → List Nat
  | _, hv, [] => hv
  | 0, hv, _ => hv
  | fuel + 1, hv, bytes =>
    processBlocks fuel (compressBlock hv (bytes.take 64)) (bytes.drop 64)

/-- SHA-256 of a byte list, as its 32 digest bytes (the model of
`crypto.createHash('sha256').update(buffer).digest()`). -/
def sha256 (m : List Nat) : List Nat :=
  let p := padMsg m
  (processBlocks p.length shaH0 p).foldr (fun w acc => beBytes 4 w ++ acc) []

/-- The standard base64 alphabet (RFC 4648 §4), as used by Node's
`Buffer.toString('base64')`. -/
def stdAlphabet : List Char :=
  "ABCDEFGHIJKLMNOPQRSTUVWXYZabcdefghijklmnopqrstuvwxyz0123456789+/".toList

/-- The base64url alphabet (RFC 4648 §5). -/
def urlAlphabet : List Char :=
  "ABCDEFGHIJKLMNOPQRSTUVWXYZabcdefghijklmnopqrstuvwxyz0123456789-_".toList

/-- Standard-alphabet character of a 6-bit index. -/
def b64CharStd (n : Nat) : Char := stdAlphabet.getD n '/'

/-- Url-safe-alphabet character of a 6-bit index. -/
def b64CharUrl (n : Nat) : Char := urlAlphabet.getD n '_'

/-- Standard base64, three input bytes to four characters, `=`-padded. -/
def base64Chunks : List Nat → List Char
  | a :: b :: c :: rest =>
    let n := a * 65536 + b * 256 + c
    b64CharStd (n / 262144) :: b64CharStd (n / 4096 % 64) ::
      b64CharStd (n / 64 % 64) :: b64CharStd (n % 64) :: base64Chunks rest
  | [a, b] =>
    let n := a * 65536 + b * 256
    [b64CharStd (n / 262144), b64CharStd (n / 4096 % 64),
      b64CharStd (n / 64 % 64), '=']
  | [a] =>
    let n := a * 65536
    [b64CharStd (n / 262144), b64CharStd (n / 4096 % 64), '=', '=']
  | [] => []

/-- `Buffer.toString('base64')`. -/
def base64Encode (buf : List Nat) : String := String.mk (base64Chunks buf)

/-- The source's character rewriting: `+` to `-`, then `/` to `_` (the first
replacement never produces a `/`, so the two global replaces compose to this
single map). -/
def b64UrlReplace (c : Char) : Char :=
  if c = '+' then '-' else if c = '/' then '_' else c

/-- `base64URLEncode` (pkce lines 15-20): standard base64, then the two
character replacements, then removal of every `=`. -/
def base64URLEncode (buf : List Nat) : String :=
  String.mk (((base64Chunks buf).map b64UrlReplace).filter (fun c => c ≠ '='))

/-- `generateCodeChallenge` (pkce lines 7-9). -/
def generateCodeChallenge (verifier : String) : String :=
  base64URLEncode (sha256 (utf8Bytes verifier))

/-- Base64url without padding, written directly from the spec's words: each
group of input bytes is encoded with the url-safe alphabet and no padding
characters are emitted. -/
def base64UrlChunks : List Nat → List Char
  | a :: b :: c :: rest =>
    let n := a * 65536 + b * 256 + c
    b64CharUrl (n / 262144) :: b64CharUrl (n / 4096 % 64) ::
      b64CharUrl (n / 64 % 64) :: b64CharUrl (n % 64) :: base64UrlChunks rest
  | [a, b] =>
    let n := a * 65536 + b * 256
    [b64CharUrl (n / 262144), b64CharUrl (n / 4096 % 64), b64CharUrl (n / 64 % 64)]
  | [a] =>
    let n := a * 65536
    [b64CharUrl (n / 262144), b64CharUrl (n / 4096 % 64)]
  | [] => []

/-- The spec's `deriveChallenge`: the base64url (no padding) encoding of the
SHA-256 digest of the verifier's bytes. -/
def deriveChallengeSpec (verifier : String) : String :=
  String.mk (base64UrlChunks (sha256 (utf8Bytes verifier)))

/-- An event that can precede the timeout in an attempt that receives no
callback: a request outside the callback path, or a dispose. -/
def preTimeoutBenign (e : AuthEvent) : Prop :=
  match e with
  | .request p _ _ => p ≠ "/callback"
  | .timeoutFires => False
  | .dispose => True

/-! ## Supporting lemmas -/

/-- Replacing `+` and `/` in a standard-alphabet character gives the url-safe
character of the same index. -/
theorem replace_std_eq_url (n : Nat) : b64UrlReplace (b64CharStd n) = b64CharUrl n := by
  by_cases h : n < 64
  · exact (by decide : ∀ m, m < 64 → b64UrlReplace (b64CharStd m) = b64CharUrl m) n h
  · have h1 : stdAlphabet.length ≤ n := by
      have : stdAlphabet.length = 64 := by decide
      omega
    have h2 : urlAlphabet.length ≤ n := by
      have : urlAlphabet.length = 64 := by decide
      omega
    unfold b64CharStd b64CharUrl
    rw [List.getD_eq_default _ _ h1, List.getD_eq_default _ _ h2]
    decide

/-- A rewritten standard-alphabet character is never the padding character. -/
theorem replace_std_ne_pad (n : Nat) : b64UrlReplace (b64CharStd n) ≠ '=' := by
  by_cases h : n < 64
  · exact (by decide : ∀ m, m < 64 → b64UrlReplace (b64CharStd m) ≠ '=') n h
  · have h1 : stdAlphabet.length ≤ n := by
      have : stdAlphabet.length = 64 := by decide
      omega
    unfold b64CharStd
    rw [List.getD_eq_default _ _ h1]
    decide

/-- The rewriting step never produces `+` or `/`. -/
theorem replace_avoids_plus_slash (c : Char) :
    b64UrlReplace c ≠ '+' ∧ b64UrlReplace c ≠ '/' := by
  unfold b64UrlReplace
  split_ifs with h1 h2 <;> simp_all

/-- The source's encode-then-rewrite-then-strip pipeline produces exactly the
direct base64url (no padding) encoding. -/
theorem chunks_map_filter :
    ∀ buf, ((base64Chunks buf).map b64UrlReplace).filter (fun c => c ≠ '=') =
      base64UrlChunks buf
  | a :: b :: c :: rest => by
    simp only [base64Chunks, base64UrlChunks, List.map_cons, List.filter_cons,
      replace_std_eq_url]
    rw [chunks_map_filter rest]
    have h1 := replace_std_ne_pad ((a * 65536 + b * 256 + c) / 262144)
    have h2 := replace_std_ne_pad ((a * 65536 + b * 256 + c) / 4096 % 64)
    have h3 := replace_std_ne_pad ((a * 65536 + b * 256 + c) / 64 % 64)
    have h4 := replace_std_ne_pad ((a * 65536 + b * 256 + c) % 64)
    rw [replace_std_eq_url] at h1 h2 h3 h4
    simp [h1, h2, h3, h4]
  | [a, b] => by
    simp only [base64Chunks, base64UrlChunks, List.map_cons, List.map_nil,
      List.filter_cons, List.filter_nil, replace_std_eq_url]
    have h1 := replace_std_ne_pad ((a * 65536 + b * 256) / 262144)
    have h2 := replace_std_ne_pad ((a * 65536 + b * 256) / 4096 % 64)
    have h3 := replace_std_ne_pad ((a * 65536 + b * 256) / 64 % 64)
    rw [replace_std_eq_url] at h1 h2 h3
    simp [h1, h2, h3, b64UrlReplace]
  | [a] => by
    simp only [base64Chunks, base64UrlChunks, List.map_cons, List.map_nil,
      List.filter_cons, List.filter_nil, replace_std_eq_url]
    have h1 := replace_std_ne_pad ((a * 65536) / 262144)
    have h2 := replace_std_ne_pad ((a * 65536) / 4096 % 64)
    rw [replace_std_eq_url] at h1 h2
    simp [h1, h2, b64UrlReplace]
  | [] => rfl

/-- Before any callback-path request or timeout, the attempt's promise stays
pending. -/
theorem pending_before_timeout (expectedState : String) :
    ∀ (es : List AuthEvent) (b : Bool), (∀ e ∈ es, preTimeoutBenign e) →
      (runEvents expectedState es ⟨b, .pending⟩).resolution = .pending := by
  intro es
  induction es with
  | nil => intro b _; rfl
  | cons e rest ih =>
    intro b h
    have he : preTimeoutBenign e := h e (List.mem_cons_self e rest)
    have hrest : ∀ x ∈ rest, preTimeoutBenign x :=
      fun x hx => h x (List.mem_cons_of_mem e hx)
    match e with
    | .dispose =>
      show (runEvents expectedState rest ⟨true, .pending⟩).resolution = .pending
      exact ih true hrest
    | .timeoutFires => exact absurd he (by simp [preTimeoutBenign])
    | .request p q exch =>
      have hp : p ≠ "/callback" := he
      show (runEvents expectedState rest
        (applyEvent expectedState (.request p q exch) ⟨b, .pending⟩)).resolution = .pending
      have : applyEvent expectedState (.request p q exch) ⟨b, .pending⟩ =
          ⟨b, .pending⟩ := by
        simp [applyEvent, handleCallback, hp, resolveOnce]
      rw [this]
      exact ih b hrest

/-! ## Claim theorems -/

/-- C4: `getValidToken` implements the 5-minute-margin expiry policy. With a
held credential (and the stored copy in sync with it, the invariant every
writer of the class maintains): when `expiresAt` is at least `now + 5`
minutes, the existing access token is returned and the state — including the
count of refresh grants — is untouched; when `expiresAt` is within the
margin and a refresh token is present, exactly one refresh grant is issued;
when within the margin with no refresh token, null is returned with no state
change and no grant. -/
theorem getValidToken_margin_policy (now : Int) (net : Option RefreshResponse)
    (uc : Bool) (ao : Option AuthResult) (s : ServiceState) (t : SpotifyTokens)
    (htok : s.tokens = some t) (hsync : s.stored = s.tokens) :
    (now + 300000 ≤ t.expiresAt →
      getValidToken now net uc ao s = (some t.accessToken, s)) ∧
    (t.expiresAt < now + 300000 → strTruthy t.refreshToken = true →
      (getValidToken now net uc ao s).2.refreshGrants = s.refreshGrants + 1) ∧
    (t.expiresAt < now + 300000 → strTruthy t.refreshToken = false →
      getValidToken now net uc ao s = (none, s)) := by
  rw [htok] at hsync
  refine ⟨?_, ?_, ?_⟩
  · intro h
    have hlt : ¬(t.expiresAt < now + 5 * 60 * 1000) := by omega
    simp only [getValidToken, htok, Option.isNone_some, Bool.false_eq_true,
      if_false, if_neg hlt]
  · intro hexp htr
    have hlt : t.expiresAt < now + 5 * 60 * 1000 := by omega
    simp only [getValidToken, htok, Option.isNone_some, Bool.false_eq_true,
      if_false, if_pos hlt, htr, if_pos rfl, refreshAccessToken, hsync]
    cases net with
    | some resp => simp [htr, saveTokens]
    | none =>
      simp only [htr, if_pos rfl]
      cases uc with
      | false => simp
      | true =>
        simp only [if_pos rfl]
        cases ao with
        | none => simp [serviceAuthenticate, CLIENT_ID]
        | some a => simp [serviceAuthenticate, CLIENT_ID, saveTokens]
  · intro hexp htr
    have hlt : t.expiresAt < now + 5 * 60 * 1000 := by omega
    simp only [getValidToken, htok, Option.isNone_some, Bool.false_eq_true,
      if_false, if_pos hlt, htr]

/-- C4 witness: a concrete fresh credential is returned untouched, a concrete
expiring credential with a refresh token issues one grant, and a concrete
expiring credential without one returns null. -/
theorem getValidToken_margin_policy_witness :
    (getValidToken 0 none false none
      ⟨some ⟨"AT", "RT", 600000⟩, some ⟨"AT", "RT", 600000⟩, 0, 0⟩ =
      (some "AT", ⟨some ⟨"AT", "RT", 600000⟩, some ⟨"AT", "RT", 600000⟩, 0, 0⟩)) ∧
    ((getValidToken 0 (some ⟨"NEW", some "RT", 3600⟩) false none
      ⟨some ⟨"AT", "RT", 120000⟩, some ⟨"AT", "RT", 120000⟩, 0, 0⟩).2.refreshGrants = 1) ∧
    (getValidToken 0 none false none
      ⟨some ⟨"AT", "", 120000⟩, some ⟨"AT", "", 120000⟩, 0, 0⟩ =
      (none, ⟨some ⟨"AT", "", 120000⟩, some ⟨"AT", "", 120000⟩, 0, 0⟩)) := by
  refine ⟨?_, ?_, ?_⟩
  · exact (getValidToken_margin_policy 0 none false none _ ⟨"AT", "RT", 600000⟩
      rfl rfl).1 (by decide)
  · exact (getValidToken_margin_policy 0 (some ⟨"NEW", some "RT", 3600⟩) false none
      _ ⟨"AT", "RT", 120000⟩ rfl rfl).2.1 (by decide) (by decide)
  · exact (getValidToken_margin_policy 0 none false none _ ⟨"AT", "", 120000⟩
      rfl rfl).2.2 (by decide) (by decide)

/-- C5: a callback request with no `error` parameter and a state value
different from the attempt's expected state resolves the attempt with the
state-mismatch failure page and a null resolution — never with tokens — even
when a `code` parameter is present (the query is arbitrary apart from the two
hypotheses). -/
theorem state_mismatch_resolves_null (expectedState : String)
    (exch : Option AuthResult) (q : CallbackQuery)
    (herr : q.error = none) (hst : q.callbackState ≠ some expectedState) :
    handleCallback expectedState exch "/callback" q =
      ⟨some (.errorPage "State mismatch"), true, .resolvedNull⟩ := by
  simp [handleCallback, handleCallbackPastError, herr, hst]

/-- C5 witness: a mismatched state with a syntactically valid `code` present
still resolves as the state-mismatch failure. -/
theorem state_mismatch_resolves_null_witness :
    handleCallback "GOOD" (some ⟨"AT", "RT", 3600⟩) "/callback"
      ⟨some "valid-code", some "EVIL", none⟩ =
      ⟨some (.errorPage "State mismatch"), true, .resolvedNull⟩ :=
  state_mismatch_resolves_null "GOOD" (some ⟨"AT", "RT", 3600⟩)
    ⟨some "valid-code", some "EVIL", none⟩ rfl (by decide)

/-- C6 counterexample: the claim fails on the code. A redirect carrying a
present-but-empty `error` parameter (`?error=`, which `url.parse` yields as
the empty string) is falsy for the source's `if (error)` truthiness check, so
the denial branch is skipped; with a matching state and a valid `code` the
handler exchanges the code and resolves the attempt with tokens — success,
not the AuthorizationDenied the claim requires for every query containing
`error`. -/
theorem empty_error_param_resolves_success :
    handleCallback "GOOD" (some ⟨"AT", "RT", 3600⟩) "/callback"
      ⟨some "valid-code", some "GOOD", some ""⟩ =
      ⟨some .successPage, true, .resolvedTokens ⟨"AT", "RT", 3600⟩⟩ := by
  decide

/-- C6 amended: a callback request whose query carries a non-empty `error`
value resolves the attempt as the authorization-denied failure (the
provider's error string on the failure page, null resolution), whatever the
`code` and `state` parameters hold: the truthy error branch precedes both the
state check and the code exchange. A present-but-empty `error` is falsy for
the handler's `if (error)` and falls through to the state check and code
exchange. -/
theorem error_param_resolves_denied (expectedState : String)
    (exch : Option AuthResult) (q : CallbackQuery) (e : String)
    (herr : q.error = some e) (htruthy : strTruthy e = true) :
    handleCallback expectedState exch "/callback" q =
      ⟨some (.errorPage e), true, .resolvedNull⟩ := by
  simp [handleCallback, herr, htruthy]

/-- C6 witness: a non-empty `error` present together with a valid `code` and
the correct state still resolves as the denial. -/
theorem error_param_resolves_denied_witness :
    handleCallback "GOOD" (some ⟨"AT", "RT", 3600⟩) "/callback"
      ⟨some "valid-code", some "GOOD", some "access_denied"⟩ =
      ⟨some (.errorPage "access_denied"), true, .resolvedNull⟩ :=
  error_param_resolves_denied "GOOD" (some ⟨"AT", "RT", 3600⟩)
    ⟨some "valid-code", some "GOOD", some "access_denied"⟩ "access_denied" rfl
    (by decide)

/-- C7: the code evaluated at the claim's failing input. A callback-path
request with no `error`, a matching `state`, and no `code` parameter falls
through the handler's `if (code)` — which has no else branch — so no page is
written to the browser, the listener is not closed, and no resolve call is
made: the request is left unanswered and the attempt pending, where the claim
requires a generic-error resolution. -/
theorem callback_without_code_left_unanswered :
    handleCallback "STATE123" (some ⟨"AT", "RT", 3600⟩) "/callback"
      ⟨none, some "STATE123", none⟩ = ⟨none, false, .pending⟩ := by
  decide

/-- C8: in an attempt in which no callback-path request arrives — any earlier
events are requests to other paths or disposes — the 5-minute timeout closes
the listener (the port is released) and resolves the attempt's promise with
null, which is what the caller observes. -/
theorem timeout_closes_and_resolves_null (expectedState : String)
    (es : List AuthEvent) (h : ∀ e ∈ es, preTimeoutBenign e) :
    runEvents expectedState (es ++ [.timeoutFires]) initialAttempt =
      ⟨true, .resolvedNull⟩ := by
  have hpend : (runEvents expectedState es initialAttempt).resolution = .pending :=
    pending_before_timeout expectedState es false h
  have hsplit : runEvents expectedState (es ++ [.timeoutFires]) initialAttempt =
      applyEvent expectedState .timeoutFires (runEvents expectedState es initialAttempt) := by
    simp [runEvents, List.foldl_append]
  rw [hsplit, applyEvent, hpend]
  rfl

/-- C8 witness: an attempt with no events before the timeout ends closed and
resolved null. -/
theorem timeout_closes_and_resolves_null_witness :
    runEvents "STATE123" ([] ++ [.timeoutFires]) initialAttempt =
      ⟨true, .resolvedNull⟩ :=
  timeout_closes_and_resolves_null "STATE123" [] (by simp)

/-- C9: `generateCodeChallenge` is deterministic (equal verifiers give equal
challenges), equals the base64url-without-padding encoding of the SHA-256
digest of the verifier's bytes, and its output never contains `+`, `/`, or
`=`. -/
theorem pkce_challenge_deterministic_urlsafe (v w : String) (hvw : v = w) :
    generateCodeChallenge v = generateCodeChallenge w ∧
    generateCodeChallenge v = deriveChallengeSpec v ∧
    ((generateCodeChallenge v).toList.all
      (fun c => decide (c ≠ '+' ∧ c ≠ '/' ∧ c ≠ '='))) = true := by
  refine ⟨by rw [hvw], ?_, ?_⟩
  · unfold generateCodeChallenge deriveChallengeSpec base64URLEncode
    rw [chunks_map_filter]
  · rw [List.all_eq_true]
    intro c hc
    rw [decide_eq_true_eq]
    have hc2 : c ∈ ((base64Chunks (sha256 (utf8Bytes v))).map b64UrlReplace).filter
        (fun c => c ≠ '=') := hc
    rw [List.mem_filter] at hc2
    obtain ⟨hmem, hpad⟩ := hc2
    rw [List.mem_map] at hmem
    obtain ⟨c0, _, hc0⟩ := hmem
    refine ⟨hc0 ▸ (replace_avoids_plus_slash c0).1, hc0 ▸ (replace_avoids_plus_slash c0).2, ?_⟩
    exact of_decide_eq_true hpad

/-- C9 witness: the theorem applied at a concrete verifier pair. -/
theorem pkce_challenge_deterministic_urlsafe_witness :
    generateCodeChallenge "dBjftJeZ4CVP-mB92K27uhbUJU1p1r_wW1gFWFOEjXk" =
      generateCodeChallenge "dBjftJeZ4CVP-mB92K27uhbUJU1p1r_wW1gFWFOEjXk" ∧
    generateCodeChallenge "dBjftJeZ4CVP-mB92K27uhbUJU1p1r_wW1gFWFOEjXk" =
      deriveChallengeSpec "dBjftJeZ4CVP-mB92K27uhbUJU1p1r_wW1gFWFOEjXk" ∧
    ((generateCodeChallenge "dBjftJeZ4CVP-mB92K27uhbUJU1p1r_wW1gFWFOEjXk").toList.all
      (fun c => decide (c ≠ '+' ∧ c ≠ '/' ∧ c ≠ '='))) = true :=
  pkce_challenge_deterministic_urlsafe _ _ rfl

/-- C10: the attempt's promise is only ever resolved, never rejected — the
executor's resolution type has no rejected alternative, and each failure
outcome, i.e. each failing branch the handler actually takes, resolves null:
a provider error in the callback (a truthy, non-empty `error` value — the
only kind the `if (error)` branch fires on), a state mismatch, a failed code
exchange (which presupposes a truthy `code`, the only kind the `if (code)`
branch exchanges), and the timeout all yield the same null resolution, so the
caller cannot tell the classes apart from the value; and
`SpotifyService.authenticate` maps that null to the boolean false. -/
theorem auth_failures_resolve_null :
    (∀ (es : String) (q : CallbackQuery) (exch : Option AuthResult) (e : String),
      q.error = some e → strTruthy e = true →
      (handleCallback es exch "/callback" q).resolution = .resolvedNull) ∧
    (∀ (es : String) (q : CallbackQuery) (exch : Option AuthResult),
      q.error = none → q.callbackState ≠ some es →
      (handleCallback es exch "/callback" q).resolution = .resolvedNull) ∧
    (∀ (es : String) (q : CallbackQuery) (c : String),
      q.error = none → q.callbackState = some es →
      q.code = some c → strTruthy c = true →
      (handleCallback es none "/callback" q).resolution = .resolvedNull) ∧
    (∀ (es : String) (b : Bool),
      applyEvent es .timeoutFires ⟨b, .pending⟩ = ⟨true, .resolvedNull⟩) ∧
    (∀ (now : Int) (s : ServiceState), (serviceAuthenticate now none s).1 = false) := by
  refine ⟨?_, ?_, ?_, ?_, ?_⟩
  · intro es q exch e herr htruthy
    simp [handleCallback, herr, htruthy]
  · intro es q exch herr hst
    simp [handleCallback, handleCallbackPastError, herr, hst]
  · intro es q c herr hst hcode htruthy
    simp [handleCallback, handleCallbackPastError, optTruthy, herr, hst, hcode, htruthy]
  · intro es b
    rfl
  · intro now s
    simp [serviceAuthenticate, CLIENT_ID]

/-- C10 witness: each failure class at a concrete input resolves null, and a
null auth-server outcome yields false from the service. -/
theorem auth_failures_resolve_null_witness :
    (handleCallback "S" none "/callback"
      ⟨some "c", some "S", some "denied"⟩).resolution = .resolvedNull ∧
    (handleCallback "S" none "/callback"
      ⟨some "c", some "X", none⟩).resolution = .resolvedNull ∧
    (handleCallback "S" none "/callback"
      ⟨some "c", some "S", none⟩).resolution = .resolvedNull ∧
    applyEvent "S" .timeoutFires ⟨false, .pending⟩ = ⟨true, .resolvedNull⟩ ∧
    (serviceAuthenticate 0 none ⟨none, none, 0, 0⟩).1 = false :=
  ⟨auth_failures_resolve_null.1 "S" _ none "denied" rfl (by decide),
   auth_failures_resolve_null.2.1 "S" _ none rfl (by decide),
   auth_failures_resolve_null.2.2.1 "S" _ "c" rfl rfl rfl (by decide),
   auth_failures_resolve_null.2.2.2.1 "S" false,
   auth_failures_resolve_null.2.2.2.2 0 _⟩

/-- C1 counterexample: the claim fails on the code. Two callers invoke
`getValidToken` concurrently on a credential expiring within the margin
(`expiresAt` 100000 at `now` 0). Under the legal event-loop schedule in which
both callers reach their refresh POST before either response is applied
(A runs to its `await axios.post`, then B runs to its own, then the responses
arrive), two refresh-token grants are issued, not the exactly one the claim
requires. -/
theorem concurrent_getValidToken_issues_two_grants :
    ((schedRun 0 (some ⟨"NEW", some "RT", 3600⟩) [true, false, true, false]
      ⟨⟨some ⟨"OLD", "RT", 100000⟩, some ⟨"OLD", "RT", 100000⟩, 0, 0⟩,
        .start, .start⟩).svc.refreshGrants = 2) ∧
    ¬((schedRun 0 (some ⟨"NEW", some "RT", 3600⟩) [true, false, true, false]
      ⟨⟨some ⟨"OLD", "RT", 100000⟩, some ⟨"OLD", "RT", 100000⟩, 0, 0⟩,
        .start, .start⟩).svc.refreshGrants = 1) := by
  decide

/-- C1 amended: the code has no single-flight guard. Each caller that passes
the expiry check before any refresh response is applied issues its own
refresh-token grant — two interleaved callers issue two grants, each caller
returning the token of its own refresh — while strictly sequential execution
of the same two callers issues exactly one grant, the second caller reusing
the renewed credential. -/
theorem getValidToken_refresh_per_interleaved_caller :
    ((schedRun 0 (some ⟨"NEW", some "RT", 3600⟩) [true, false, true, false]
      ⟨⟨some ⟨"OLD", "RT", 100000⟩, some ⟨"OLD", "RT", 100000⟩, 0, 0⟩,
        .start, .start⟩) =
      ⟨⟨some ⟨"NEW", "RT", 3600000⟩, some ⟨"NEW", "RT", 3600000⟩, 2, 0⟩,
        .finished (some "NEW"), .finished (some "NEW")⟩) ∧
    ((schedRun 0 (some ⟨"NEW", some "RT", 3600⟩) [true, true, false, false]
      ⟨⟨some ⟨"OLD", "RT", 100000⟩, some ⟨"OLD", "RT", 100000⟩, 0, 0⟩,
        .start, .start⟩) =
      ⟨⟨some ⟨"NEW", "RT", 3600000⟩, some ⟨"NEW", "RT", 3600000⟩, 1, 0⟩,
        .finished (some "NEW"), .finished (some "NEW")⟩) := by
  decide

/-- C2 counterexample: the claim fails on the code. `getCurrentTrack`,
holding a fresh token, receives three consecutive 401 responses while every
refresh grant succeeds: the code issues three refresh grants and three API
calls — the second 401 is not terminal, and there is no exactly-once refresh
or retry. -/
theorem getCurrentTrack_three_401s_three_refreshes :
    ((getCurrentTrack 0 (fun _ => some ⟨"AT", some "RT", 3600⟩) false none
      [.unauthorized, .unauthorized, .unauthorized]
      ⟨some ⟨"AT", "RT", 3600000⟩, some ⟨"AT", "RT", 3600000⟩, 0, 0⟩).2.refreshGrants = 3) ∧
    ((getCurrentTrack 0 (fun _ => some ⟨"AT", some "RT", 3600⟩) false none
      [.unauthorized, .unauthorized, .unauthorized]
      ⟨some ⟨"AT", "RT", 3600000⟩, some ⟨"AT", "RT", 3600000⟩, 0, 0⟩).2.apiCalls = 3) ∧
    ¬((getCurrentTrack 0 (fun _ => some ⟨"AT", some "RT", 3600⟩) false none
      [.unauthorized, .unauthorized, .unauthorized]
      ⟨some ⟨"AT", "RT", 3600000⟩, some ⟨"AT", "RT", 3600000⟩, 0, 0⟩).2.refreshGrants = 1) := by
  decide

/-- Helper for C2: with a fresh credential and a refresh oracle that always
grants the same fresh token, `getCurrentTrack` against `k` consecutive 401
responses followed by a success issues exactly `k` refresh grants and `k + 1`
API calls and returns the track. -/
theorem getCurrentTrack_replicate_401 (k g a : Nat) :
    getCurrentTrack 0 (fun _ => some ⟨"AT", some "RT", 3600⟩) false none
      (List.replicate k .unauthorized ++ [.ok "TRACK"])
      ⟨some ⟨"AT", "RT", 3600000⟩, some ⟨"AT", "RT", 3600000⟩, g, a⟩ =
    (some "TRACK",
      ⟨some ⟨"AT", "RT", 3600000⟩, some ⟨"AT", "RT", 3600000⟩, g + k, a + k + 1⟩) := by
  induction k generalizing g a with
  | zero =>
    simp [getCurrentTrack, getValidToken]
  | succ k ih =>
    rw [List.replicate_succ, List.cons_append]
    have hone : getCurrentTrack 0 (fun _ => some ⟨"AT", some "RT", 3600⟩) false none
        (.unauthorized :: (List.replicate k .unauthorized ++ [.ok "TRACK"]))
        ⟨some ⟨"AT", "RT", 3600000⟩, some ⟨"AT", "RT", 3600000⟩, g, a⟩ =
        getCurrentTrack 0 (fun _ => some ⟨"AT", some "RT", 3600⟩) false none
        (List.replicate k .unauthorized ++ [.ok "TRACK"])
        ⟨some ⟨"AT", "RT", 3600000⟩, some ⟨"AT", "RT", 3600000⟩, g + 1, a + 1⟩ := by
      simp [getCurrentTrack, getValidToken, refreshAccessToken, strTruthy, saveTokens]
    rw [hone, ih (g + 1) (a + 1)]
    have h1 : g + 1 + k = g + (k + 1) := by omega
    have h2 : a + 1 + k + 1 = a + (k + 1) + 1 := by omega
    rw [h1, h2]

/-- C2 amended: the reactive-refresh behaviour the code actually implements.
`getCurrentTrack` refreshes on each 401 and, when the refresh succeeds,
retries the whole call again — `k` consecutive 401s with always-succeeding
refreshes yield `k` refresh grants and `k + 1` API calls before the eventual
success is returned, terminal only when a refresh fails or a non-401 outcome
arrives — while the media-control commands routed through `handleApiError`
(here `pause`) perform exactly one refresh attempt on a 401 and never retry
the original call. -/
theorem reactive_refresh_retries_until_refresh_fails :
    (∀ k : Nat,
      getCurrentTrack 0 (fun _ => some ⟨"AT", some "RT", 3600⟩) false none
        (List.replicate k .unauthorized ++ [.ok "TRACK"])
        ⟨some ⟨"AT", "RT", 3600000⟩, some ⟨"AT", "RT", 3600000⟩, 0, 0⟩ =
      (some "TRACK",
        ⟨some ⟨"AT", "RT", 3600000⟩, some ⟨"AT", "RT", 3600000⟩, k, k + 1⟩)) ∧
    (pauseCall 0 (some ⟨"AT", some "RT", 3600⟩) false none (.failure 401)
      ⟨some ⟨"AT", "RT", 3600000⟩, some ⟨"AT", "RT", 3600000⟩, 0, 0⟩ =
      ⟨some ⟨"AT", "RT", 3600000⟩, some ⟨"AT", "RT", 3600000⟩, 1, 1⟩) := by
  constructor
  · intro k
    have h := getCurrentTrack_replicate_401 k 0 0
    simpa using h
  · decide

/-- C3 counterexample: the claim fails on the code. After a failed refresh
grant, `refreshAccessToken` shows a re-authentication prompt; when the user
accepts and that authentication succeeds, a fresh credential is installed
before `refreshAccessToken` returns false, so the refresh returns false while
a subsequent `isAuthenticated()` returns true — not false as the claim
requires. -/
theorem refresh_failure_then_reauth_isAuthenticated_true :
    ((refreshAccessToken 0 none true (some ⟨"A2", "R2", 3600⟩)
      ⟨some ⟨"OLD", "RT", 100⟩, some ⟨"OLD", "RT", 100⟩, 0, 0⟩).1 = false) ∧
    isAuthenticated 0 (refreshAccessToken 0 none true (some ⟨"A2", "R2", 3600⟩)
      ⟨some ⟨"OLD", "RT", 100⟩, some ⟨"OLD", "RT", 100⟩, 0, 0⟩).2 = true := by
  decide

/-- C3 amended: when a refresh-token grant fails, both the in-memory and the
durably persisted credential are cleared and false is returned; a subsequent
`isAuthenticated()` returns false provided the re-authentication prompt shown
on failure is not accepted or that authentication fails — if it is accepted
and succeeds, a fresh credential is saved before the refresh returns false
(and `isAuthenticated` then reflects the new credential, not the cleared
one). -/
theorem refresh_failure_clears_credentials (now : Int) (uc : Bool)
    (ao : Option AuthResult) (s : ServiceState) (toks : SpotifyTokens)
    (hst : s.stored = some toks) (htr : strTruthy toks.refreshToken = true) :
    (refreshAccessToken now none uc ao s).1 = false ∧
    (uc = false ∨ ao = none →
      (refreshAccessToken now none uc ao s).2.tokens = none ∧
      (refreshAccessToken now none uc ao s).2.stored = none ∧
      isAuthenticated now (refreshAccessToken now none uc ao s).2 = false) ∧
    (∀ a, uc = true → ao = some a →
      (refreshAccessToken now none uc ao s).2.tokens =
        some ⟨a.accessToken, a.refreshToken, now + a.expiresIn * 1000⟩) := by
  refine ⟨?_, ?_, ?_⟩
  · simp [refreshAccessToken, hst, htr]
  · intro h
    rcases h with h | h
    · subst h
      simp [refreshAccessToken, hst, htr, isAuthenticated]
    · subst h
      cases uc <;>
        simp [refreshAccessToken, hst, htr, isAuthenticated,
          serviceAuthenticate, CLIENT_ID]
  · intro a huc hao
    subst huc
    subst hao
    simp [refreshAccessToken, hst, htr, serviceAuthenticate, CLIENT_ID, saveTokens]

/-- C3 witness: a concrete failed grant with the prompt declined clears both
copies and flips `isAuthenticated` to false; with the prompt accepted and a
successful re-authentication the fresh credential is installed. -/
theorem refresh_failure_clears_credentials_witness :
    ((refreshAccessToken 0 none false none
      ⟨some ⟨"OLD", "RT", 100⟩, some ⟨"OLD", "RT", 100⟩, 0, 0⟩).1 = false) ∧
    ((refreshAccessToken 0 none false none
      ⟨some ⟨"OLD", "RT", 100⟩, some ⟨"OLD", "RT", 100⟩, 0, 0⟩).2.tokens = none) ∧
    ((refreshAccessToken 0 none false none
      ⟨some ⟨"OLD", "RT", 100⟩, some ⟨"OLD", "RT", 100⟩, 0, 0⟩).2.stored = none) ∧
    (isAuthenticated 0 (refreshAccessToken 0 none false none
      ⟨some ⟨"OLD", "RT", 100⟩, some ⟨"OLD", "RT", 100⟩, 0, 0⟩).2 = false) ∧
    ((refreshAccessToken 0 none true (some ⟨"A2", "R2", 3600⟩)
      ⟨some ⟨"OLD", "RT", 100⟩, some ⟨"OLD", "RT", 100⟩, 0, 0⟩).2.tokens =
      some ⟨"A2", "R2", 3600000⟩) := by
  have h := refresh_failure_clears_credentials 0 false none
    ⟨some ⟨"OLD", "RT", 100⟩, some ⟨"OLD", "RT", 100⟩, 0, 0⟩ ⟨"OLD", "RT", 100⟩
    rfl (by decide)
  have h2 := refresh_failure_clears_credentials 0 true (some ⟨"A2", "R2", 3600⟩)
    ⟨some ⟨"OLD", "RT", 100⟩, some ⟨"OLD", "RT", 100⟩, 0, 0⟩ ⟨"OLD", "RT", 100⟩
    rfl (by decide)
  refine ⟨h.1, (h.2.1 (Or.inl rfl)).1, (h.2.1 (Or.inl rfl)).2.1,
    (h.2.1 (Or.inl rfl)).2.2, ?_⟩
  have := h2.2.2 ⟨"A2", "R2", 3600⟩ rfl rfl
  simpa using this

end SpotifyExt
